import Mathlib

/-!
Verification development for the BurrowSpace P2P rendezvous/relay server
(`python_server/server.py`).  The four in-memory registries
(`connected_peers`, `transfer_requests`, `active_transfers`, `relay_sessions`)
are modelled as insertion-ordered association lists (matching Python `dict`
semantics: lookup finds the unique entry for a key, assignment replaces in
place or appends).  Timestamps are seconds as `Nat`; `datetime.now()` is
passed in explicitly as `now`.  The filesystem under the upload folder is a
list of existing paths.  Socket.IO `emit` calls are collected into an event
list.  `uuid.uuid4()` outputs are passed in as explicit `fresh` identifier
arguments.
-/

/-- A connected peer record, `connected_peers[peer_id]` in the source.
Here `socket_id = none` models the absence of the socket_id key, and
`disconnected_at = none` the absence of the disconnected_at key. -/
structure Peer where
  user_id : String
  ip : String
  connected_at : Nat
  status : String
  last_seen : Nat
  socket_id : Option String
  disconnected_at : Option Nat
  deriving Repr, DecidableEq

/-- A transfer request record, `transfer_requests[request_id]` in the source. -/
structure TransferRequest where
  sender_id : String
  receiver_id : String
  filename : String
  status : String
  created_at : Nat
  deriving Repr, DecidableEq

/-- An active transfer record, `active_transfers[transfer_id]` in the source.
`file_path = none` / `completed_at = none` model the absence of those keys. -/
structure ActiveTransfer where
  request_id : String
  status : String
  progress : Int
  created_at : Nat
  sender_id : String
  receiver_id : String
  filename : String
  transfer_mode : String
  file_path : Option String
  completed_at : Option Nat
  deriving Repr, DecidableEq

/-- A relay session record, `relay_sessions[session_id]` in the source. -/
structure RelaySession where
  sender_id : String
  receiver_id : String
  status : String
  created_at : Nat
  deriving Repr, DecidableEq

/-- Association-list lookup: first entry whose key equals `k`
(Python `d[k]` / `k in d`). -/
def lookupS {α : Type} (k : String) : List (String × α) → Option α
  | [] => none
  | (k', v) :: rest => if k = k' then some v else lookupS k rest

/-- Association-list assignment `d[k] = v`: replace the first entry with key
`k`, or append a new entry (Python dicts keep insertion order). -/
def setStore {α : Type} (k : String) (v : α) : List (String × α) → List (String × α)
  | [] => [(k, v)]
  | (k', v') :: rest => if k = k' then (k, v) :: rest else (k', v') :: setStore k v rest

/-- In-place mutation of the record stored at `k` (Python `d[k].field = x`). -/
def modifyS {α : Type} (k : String) (f : α → α) : List (String × α) → List (String × α)
  | [] => []
  | (k', v') :: rest => if k = k' then (k', f v') :: rest else (k', v') :: modifyS k f rest

/-- Pointwise in-place update of every entry (the `for ... in d.items()`
mutation loops of the source). -/
def mapStore {α : Type} (f : String → α → α) : List (String × α) → List (String × α)
  | [] => []
  | (k, v) :: rest => (k, f k v) :: mapStore f rest

theorem lookupS_setStore_self {α : Type} (k : String) (v : α) (s : List (String × α)) :
    lookupS k (setStore k v s) = some v := by
  induction s with
  | nil => simp [setStore, lookupS]
  | cons hd tl ih =>
    obtain ⟨k', v'⟩ := hd
    by_cases h : k = k'
    · simp [setStore, lookupS, h]
    · simp [setStore, lookupS, h, ih]

theorem lookupS_setStore_ne {α : Type} (k k' : String) (v : α) (s : List (String × α))
    (h : k ≠ k') : lookupS k (setStore k' v s) = lookupS k s := by
  induction s with
  | nil => simp [setStore, lookupS, h]
  | cons hd tl ih =>
    obtain ⟨k₀, v₀⟩ := hd
    by_cases h0 : k' = k₀
    · subst h0
      simp [setStore, lookupS, h]
    · by_cases h1 : k = k₀
      · simp [setStore, lookupS, h0, h1]
      · simp [setStore, lookupS, h0, h1, ih]

theorem lookupS_modifyS {α : Type} (k k' : String) (f : α → α) (s : List (String × α)) :
    lookupS k (modifyS k' f s) =
      if k = k' then (lookupS k s).map f else lookupS k s := by
  induction s with
  | nil => simp [modifyS, lookupS]
  | cons hd tl ih =>
    obtain ⟨k₀, v₀⟩ := hd
    by_cases h0 : k' = k₀
    · subst h0
      by_cases h1 : k = k'
      · subst h1
        simp [modifyS, lookupS]
      · simp [modifyS, lookupS, h1, ih]
    · by_cases h1 : k = k₀
      · subst h1
        simp [modifyS, lookupS, h0, Ne.symm h0]
      · simp [modifyS, lookupS, h0, h1, ih]

theorem lookupS_modifyS_self {α : Type} (k : String) (f : α → α) (s : List (String × α)) :
    lookupS k (modifyS k f s) = (lookupS k s).map f := by
  simp [lookupS_modifyS]

theorem lookupS_modifyS_ne {α : Type} (k k' : String) (f : α → α) (s : List (String × α))
    (h : k ≠ k') : lookupS k (modifyS k' f s) = lookupS k s := by
  simp [lookupS_modifyS, h]

theorem lookupS_mapStore {α : Type} (k : String) (f : String → α → α)
    (s : List (String × α)) :
    lookupS k (mapStore f s) = (lookupS k s).map (f k) := by
  induction s with
  | nil => simp [mapStore, lookupS]
  | cons hd tl ih =>
    obtain ⟨k₀, v₀⟩ := hd
    by_cases h : k = k₀
    · subst h
      simp [mapStore, lookupS]
    · simp [mapStore, lookupS, h, ih]

theorem isSome_lookupS_setStore {α : Type} (k k' : String) (v : α)
    (s : List (String × α)) (h : (lookupS k s).isSome) :
    (lookupS k (setStore k' v s)).isSome := by
  by_cases hk : k = k'
  · subst hk
    simp [lookupS_setStore_self]
  · rwa [lookupS_setStore_ne k k' v s hk]

theorem isSome_lookupS_modifyS {α : Type} (k k' : String) (f : α → α)
    (s : List (String × α)) (h : (lookupS k s).isSome) :
    (lookupS k (modifyS k' f s)).isSome := by
  rw [lookupS_modifyS]
  by_cases hk : k = k'
  · subst hk
    simpa using h
  · simpa [hk] using h

theorem isSome_lookupS_mapStore {α : Type} (k : String) (f : String → α → α)
    (s : List (String × α)) (h : (lookupS k s).isSome) :
    (lookupS k (mapStore f s)).isSome := by
  rw [lookupS_mapStore]
  simpa using h

/-- Outbound Socket.IO events (`sio.emit` calls).  `room` is the socket id
the event is addressed to; `peerDisconnected` is broadcast with no room. -/
inductive Emit where
  | peerDisconnected (peer_id : String)
  | peerSignal (room : String) (sender_peer_id : String) (signal : String)
  | relayInitiated (room : String) (session_id : String) (target_peer_id : String)
  | relayChunk (room : String) (session_id : String) (chunk : String) (index : Int) (total : Int)
  | transferRequest (room : String) (request_id : String) (sender_id : String) (filename : String)
  | transferApproved (room : String) (request_id : String) (transfer_id : String)
  | transferCompleted (room : String) (transfer_id : String) (transfer_mode : String) (filename : Option String)
  | transferCancelled (room : String) (transfer_id : String)
  deriving Repr, DecidableEq

/-- The whole mutable server state: the four module-level registries plus the
set of existing staged files under the upload folder (`os.path.exists` /
`os.remove` / `file.save`). -/
structure ServerState where
  connected_peers : List (String × Peer)
  transfer_requests : List (String × TransferRequest)
  active_transfers : List (String × ActiveTransfer)
  relay_sessions : List (String × RelaySession)
  files : List String
  deriving Repr, DecidableEq

/-- The reachability test the source writes inline:
pid in connected_peers, and socket_id present on that record. -/
def reachable (st : ServerState) (pid : String) : Bool :=
  match lookupS pid st.connected_peers with
  | some p => p.socket_id.isSome
  | none => false

/-- Handler for POST /connect (`connect_peer`): always creates a fresh online peer;
never deduplicates by `user_id`. -/
def connect_peer (st : ServerState) (now : Nat) (fresh_peer_id : String)
    (user_id remote_addr : String) : String × ServerState :=
  let p : Peer :=
    { user_id := user_id, ip := remote_addr, connected_at := now,
      status := "online", last_seen := now, socket_id := none,
      disconnected_at := none }
  let peers := setStore fresh_peer_id p st.connected_peers
  (fresh_peer_id, { st with connected_peers := peers })

inductive RegisterResult where
  | success
  | error (message : String)
  deriving Repr, DecidableEq

/-- Socket.IO `register_socket` event handler: attaches the channel (socket
id) to the peer and refreshes `last_seen`. -/
def register_socket (st : ServerState) (now : Nat) (sid : String)
    (peer_id : String) : RegisterResult × ServerState :=
  if peer_id = "" then (.error "Invalid peer ID", st)
  else
    match lookupS peer_id st.connected_peers with
    | some _ =>
        let peers := modifyS peer_id
          (fun p => { p with socket_id := some sid, last_seen := now })
          st.connected_peers
        (.success, { st with connected_peers := peers })
    | none => (.error "Invalid peer ID", st)

/-- Socket.IO `disconnect` event handler (channel loss): every peer whose
`socket_id` equals the lost socket is marked offline, `disconnected_at`
stamped, and a `peer_disconnected` notification is broadcast for it. -/
def sio_disconnect (st : ServerState) (now : Nat) (sid : String) :
    ServerState × List Emit :=
  let peers := mapStore
    (fun _ p =>
      if p.socket_id = some sid then
        { p with status := "offline", disconnected_at := some now }
      else p)
    st.connected_peers
  let emits := (st.connected_peers.filter (fun kv => kv.2.socket_id = some sid)).map
    (fun kv => Emit.peerDisconnected kv.1)
  ({ st with connected_peers := peers }, emits)

inductive HeartbeatResult where
  | ok
  | notFound
  deriving Repr, DecidableEq

/-- Handler for POST /heartbeat/<peer_id> (`heartbeat`): refreshes `last_seen` and re-promotes the
peer to online. -/
def heartbeat (st : ServerState) (now : Nat) (peer_id : String) :
    HeartbeatResult × ServerState :=
  match lookupS peer_id st.connected_peers with
  | none => (.notFound, st)
  | some _ =>
      let peers := modifyS peer_id
        (fun p => { p with last_seen := now, status := "online" })
        st.connected_peers
      (.ok, { st with connected_peers := peers })

/-- Handler for GET /peers (`get_peers`): snapshot of all online peers, optionally
filtered by `user_id`.  Read-only. -/
def get_peers (st : ServerState) (user_id : Option String) :
    List (String × Peer) :=
  st.connected_peers.filter (fun kv =>
    kv.2.status == "online" &&
      (user_id.isNone || user_id == some kv.2.user_id))

/-- Helper `initiate_relay`: opens a relay session in status `initiated` and, when
the sender has an attached channel, notifies it that relay mode was entered.
Returns the new session id (to its internal caller only). -/
def initiate_relay (st : ServerState) (now : Nat) (fresh_session_id : String)
    (sender_peer_id receiver_peer_id : String) :
    String × ServerState × List Emit :=
  let sess : RelaySession :=
    { sender_id := sender_peer_id, receiver_id := receiver_peer_id,
      status := "initiated", created_at := now }
  let sessions := setStore fresh_session_id sess st.relay_sessions
  let emits :=
    match lookupS sender_peer_id st.connected_peers with
    | some p =>
        match p.socket_id with
        | some sock => [Emit.relayInitiated sock fresh_session_id receiver_peer_id]
        | none => []
    | none => []
  (fresh_session_id, { st with relay_sessions := sessions }, emits)

inductive SignalResult where
  | success
  | relay (message : String)
  deriving Repr, DecidableEq

/-- Socket.IO `peer_signal` event handler (the Signal Router's
`route_signal`): forwards the opaque payload when the target peer record
exists and has a `socket_id` (the peer's `status` is not consulted);
otherwise falls back to `initiate_relay`.  The fallback return value is
a status of relay plus a fixed message — it carries no session id. -/
def peer_signal (st : ServerState) (now : Nat) (fresh_session_id : String)
    (target_peer_id sender_peer_id signal : String) :
    SignalResult × ServerState × List Emit :=
  match lookupS target_peer_id st.connected_peers with
  | some p =>
      match p.socket_id with
      | some sock =>
          (.success, st, [Emit.peerSignal sock sender_peer_id signal])
      | none =>
          let r := initiate_relay st now fresh_session_id sender_peer_id target_peer_id
          (.relay "Target peer unavailable, using relay", r.2.1, r.2.2)
  | none =>
      let r := initiate_relay st now fresh_session_id sender_peer_id target_peer_id
      (.relay "Target peer unavailable, using relay", r.2.1, r.2.2)

inductive ChunkResult where
  | success
  | queued (message : String)
  | err (message : String)
  deriving Repr, DecidableEq

/-- Socket.IO `relay_chunk` event handler (the Relay Session Manager's
`forward_chunk`): unknown session → error; receiver reachable → forward the
chunk and, on the last chunk (`index == total - 1`), mark the session
completed; receiver unreachable → report queued (no buffering, no mutation). -/
def relay_chunk (st : ServerState) (session_id chunk : String)
    (index total : Int) : ChunkResult × ServerState × List Emit :=
  match lookupS session_id st.relay_sessions with
  | none => (.err "Invalid relay session", st, [])
  | some sess =>
      match lookupS sess.receiver_id st.connected_peers with
      | some p =>
          match p.socket_id with
          | some sock =>
              let emits := [Emit.relayChunk sock session_id chunk index total]
              if index = total - 1 then
                let sessions := modifyS session_id
                  (fun s => { s with status := "completed" })
                  st.relay_sessions
                (.success, { st with relay_sessions := sessions }, emits)
              else (.success, st, emits)
          | none => (.queued "Receiver offline, chunk queued", st, [])
      | none => (.queued "Receiver offline, chunk queued", st, [])

/-- First connected peer whose `user_id` matches and whose status is
`online` — the `for peer_id, peer_data in connected_peers.items(): ...
break` scan used to notify a user. -/
def findOnlinePeer (st : ServerState) (uid : String) : Option (String × Peer) :=
  st.connected_peers.find? (fun kv => kv.2.user_id == uid && kv.2.status == "online")

/-- Handler for POST /request-transfer (`request_file_transfer`): records a pending
transfer request and, when the receiver has an online peer, notifies the
first such peer over its channel.  Returns the request id and the
`receiver_online` flag. -/
def request_file_transfer (st : ServerState) (now : Nat) (fresh_request_id : String)
    (sender_id receiver_id filename : String) :
    (String × Bool) × ServerState × List Emit :=
  let req : TransferRequest :=
    { sender_id := sender_id, receiver_id := receiver_id,
      filename := filename, status := "pending", created_at := now }
  let requests := setStore fresh_request_id req st.transfer_requests
  let found := findOnlinePeer st receiver_id
  let emits :=
    match found with
    | some kv =>
        match kv.2.socket_id with
        | some sock => [Emit.transferRequest sock fresh_request_id sender_id filename]
        | none => []
    | none => []
  ((fresh_request_id, found.isSome), { st with transfer_requests := requests }, emits)

inductive ApproveResult where
  | approved (transfer_id : String) (sender_online : Bool)
  | notFound
  deriving Repr, DecidableEq

/-- Handler for POST /approve-transfer/<request_id> (`approve_transfer`): unknown
request → 404 with no mutation; otherwise marks the request `approved`,
creates a fresh `ActiveTransfer` in `ready` with progress 0 and mode `p2p`,
and notifies the sender's first online peer if any. -/
def approve_transfer (st : ServerState) (now : Nat) (fresh_transfer_id : String)
    (request_id : String) : ApproveResult × ServerState × List Emit :=
  match lookupS request_id st.transfer_requests with
  | none => (.notFound, st, [])
  | some req =>
      let requests := modifyS request_id (fun r => { r with status := "approved" })
        st.transfer_requests
      let t : ActiveTransfer :=
        { request_id := request_id, status := "ready", progress := 0,
          created_at := now, sender_id := req.sender_id,
          receiver_id := req.receiver_id, filename := req.filename,
          transfer_mode := "p2p", file_path := none, completed_at := none }
      let transfers := setStore fresh_transfer_id t st.active_transfers
      let found := findOnlinePeer st req.sender_id
      let emits :=
        match found with
        | some kv =>
            match kv.2.socket_id with
            | some sock => [Emit.transferApproved sock request_id fresh_transfer_id]
            | none => []
        | none => []
      (.approved fresh_transfer_id found.isSome,
       { st with transfer_requests := requests, active_transfers := transfers },
       emits)

inductive UploadResult where
  | completed (transfer_id : String) (filename : String)
  | notFound
  | badRequest (message : String)
  deriving Repr, DecidableEq

/-- Handler for POST /upload/<transfer_id> (`upload_file`), the server-relay fallback:
stages the payload under `transfers/<transfer_id>/<filename>`, switches the
transfer to `server_relay` mode, marks it `completed` with progress 100, and
notifies the receiver's first online peer.  `file` is the (werkzeug-secured)
filename of the uploaded part, `none` when the request had no file part. -/
def upload_file (st : ServerState) (now : Nat) (transfer_id : String)
    (file : Option String) : UploadResult × ServerState × List Emit :=
  match lookupS transfer_id st.active_transfers with
  | none => (.notFound, st, [])
  | some t =>
      match file with
      | none => (.badRequest "No file part", st, [])
      | some filename =>
          if filename = "" then (.badRequest "No selected file", st, [])
          else
            let file_path := "transfers/" ++ transfer_id ++ "/" ++ filename
            let transfers1 := modifyS transfer_id
              (fun u => { u with status := "transferring", transfer_mode := "server_relay" })
              st.active_transfers
            let transfers2 := modifyS transfer_id
              (fun u => { u with
                          status := "completed", progress := 100,
                          file_path := some file_path, completed_at := some now })
              transfers1
            let found := findOnlinePeer st t.receiver_id
            let emits :=
              match found with
              | some kv =>
                  match kv.2.socket_id with
                  | some sock =>
                      [Emit.transferCompleted sock transfer_id "server_relay" (some filename)]
                  | none => []
              | none => []
            (.completed transfer_id filename,
             { st with active_transfers := transfers2, files := file_path :: st.files },
             emits)

inductive DownloadResult where
  | sendFile (path : String)
  | notFound
  | notReady
  | internalError
  deriving Repr, DecidableEq

/-- Handler for GET /download/<transfer_id> (`download_file`): read-only; serves the
staged file of a `completed` transfer.  A completed transfer without a
`file_path` key raises `KeyError` in the source, caught as a 500
(`internalError`). -/
def download_file (st : ServerState) (transfer_id : String) :
    DownloadResult × ServerState :=
  match lookupS transfer_id st.active_transfers with
  | none => (.notFound, st)
  | some t =>
      if t.status ≠ "completed" then (.notReady, st)
      else
        match t.file_path with
        | none => (.internalError, st)
        | some p => if p ∈ st.files then (.sendFile p, st) else (.notFound, st)

/-- Handler for GET /transfer-status/<transfer_id> (`get_transfer_status`): read-only
snapshot of one active transfer. -/
def get_transfer_status (st : ServerState) (transfer_id : String) :
    Option ActiveTransfer × ServerState :=
  (lookupS transfer_id st.active_transfers, st)

inductive UpdateResult where
  | updated
  | notFound
  deriving Repr, DecidableEq

/-- Handler for POST /update-transfer-status/<transfer_id> (`update_transfer_status`):
unknown transfer → 404; otherwise overwrites `status` and `progress` with
the request's values unconditionally (no terminal-state check), and when the
new status is `completed` also stamps `completed_at` and notifies every
online peer of the sender or receiver that has a channel. -/
def update_transfer_status (st : ServerState) (now : Nat) (transfer_id : String)
    (status_in : String) (progress_in : Int) :
    UpdateResult × ServerState × List Emit :=
  match lookupS transfer_id st.active_transfers with
  | none => (.notFound, st, [])
  | some t =>
      let transfers1 := modifyS transfer_id
        (fun u => { u with status := status_in, progress := progress_in })
        st.active_transfers
      if status_in = "completed" then
        let transfers2 := modifyS transfer_id
          (fun u => { u with completed_at := some now }) transfers1
        let emits := st.connected_peers.filterMap (fun kv =>
          if (kv.2.user_id == t.sender_id || kv.2.user_id == t.receiver_id) &&
              kv.2.status == "online" then
            kv.2.socket_id.map (fun sock =>
              Emit.transferCompleted sock transfer_id "p2p" none)
          else none)
        (.updated, { st with active_transfers := transfers2 }, emits)
      else (.updated, { st with active_transfers := transfers1 }, [])

inductive CancelResult where
  | cancelled (transfer_id : String)
  | notFound
  deriving Repr, DecidableEq

/-- Handler for POST /cancel-transfer/<transfer_id> (`cancel_transfer`): unknown
transfer → 404; otherwise sets status `cancelled` unconditionally, removes
the staged file when the transfer is in `server_relay` mode and has a
`file_path`, and notifies every online peer of the sender or receiver that
has a channel. -/
def cancel_transfer (st : ServerState) (transfer_id : String) :
    CancelResult × ServerState × List Emit :=
  match lookupS transfer_id st.active_transfers with
  | none => (.notFound, st, [])
  | some t =>
      let transfers := modifyS transfer_id
        (fun u => { u with status := "cancelled" }) st.active_transfers
      let files :=
        if t.transfer_mode = "server_relay" then
          match t.file_path with
          | some p => st.files.filter (fun q => q ≠ p)
          | none => st.files
        else st.files
      let emits := st.connected_peers.filterMap (fun kv =>
        if (kv.2.user_id == t.sender_id || kv.2.user_id == t.receiver_id) &&
            kv.2.status == "online" then
          kv.2.socket_id.map (fun sock => Emit.transferCancelled sock transfer_id)
        else none)
      (.cancelled transfer_id,
       { st with active_transfers := transfers, files := files }, emits)

inductive DisconnectResult where
  | disconnected (peer_id : String)
  | notFound
  deriving Repr, DecidableEq

/-- Handler for POST /disconnect/<peer_id> (`disconnect_peer`): unknown peer → 404;
otherwise sets status `offline` and stamps `disconnected_at`.  The
`socket_id` key is left in place. -/
def disconnect_peer (st : ServerState) (now : Nat) (peer_id : String) :
    DisconnectResult × ServerState :=
  match lookupS peer_id st.connected_peers with
  | none => (.notFound, st)
  | some _ =>
      let peers := modifyS peer_id
        (fun p => { p with status := "offline", disconnected_at := some now })
        st.connected_peers
      (.disconnected peer_id, { st with connected_peers := peers })

/-- One pass of the body of the `cleanup_inactive_peers` background loop:
every peer that is `online` and silent for strictly more than 60 seconds is
demoted to `offline`; no other field is touched. -/
def cleanup_inactive_peers (st : ServerState) (now : Nat) : ServerState :=
  let peers := mapStore
    (fun _ p =>
      if p.status = "online" ∧ 60 < now - p.last_seen then
        { p with status := "offline" }
      else p)
    st.connected_peers
  { st with connected_peers := peers }

/-- One atomic server operation: any HTTP handler, any Socket.IO event
handler (including the channel-loss handler), or one pass of the cleanup
sweep, with arbitrary inputs. -/
inductive Step : ServerState → ServerState → Prop where
  | connect (st : ServerState) (now : Nat) (pid uid addr : String) :
      Step st (connect_peer st now pid uid addr).2
  | registerSocket (st : ServerState) (now : Nat) (sid pid : String) :
      Step st (register_socket st now sid pid).2
  | socketLoss (st : ServerState) (now : Nat) (sid : String) :
      Step st (sio_disconnect st now sid).1
  | beat (st : ServerState) (now : Nat) (pid : String) :
      Step st (heartbeat st now pid).2
  | signal (st : ServerState) (now : Nat) (fresh tgt src sig : String) :
      Step st (peer_signal st now fresh tgt src sig).2.1
  | chunk (st : ServerState) (sid c : String) (i t : Int) :
      Step st (relay_chunk st sid c i t).2.1
  | requestTransfer (st : ServerState) (now : Nat) (rid s r f : String) :
      Step st (request_file_transfer st now rid s r f).2.1
  | approve (st : ServerState) (now : Nat) (tid rid : String) :
      Step st (approve_transfer st now tid rid).2.1
  | upload (st : ServerState) (now : Nat) (tid : String) (f : Option String) :
      Step st (upload_file st now tid f).2.1
  | download (st : ServerState) (tid : String) :
      Step st (download_file st tid).2
  | statusQuery (st : ServerState) (tid : String) :
      Step st (get_transfer_status st tid).2
  | updateStatus (st : ServerState) (now : Nat) (tid s : String) (p : Int) :
      Step st (update_transfer_status st now tid s p).2.1
  | cancel (st : ServerState) (tid : String) :
      Step st (cancel_transfer st tid).2.1
  | disconnect (st : ServerState) (now : Nat) (pid : String) :
      Step st (disconnect_peer st now pid).2
  | sweep (st : ServerState) (now : Nat) :
      Step st (cleanup_inactive_peers st now)

/-- Lemma: `download_file` is read-only: it never mutates the server state. -/
theorem download_file_state (st : ServerState) (tid : String) :
    (download_file st tid).2 = st := by
  unfold download_file
  repeat first | rfl | split

/-- Key-set monotonicity of all four registries across one step. -/
theorem step_mono (st st' : ServerState) (hs : Step st st') :
    (∀ k, (lookupS k st.connected_peers).isSome →
       (lookupS k st'.connected_peers).isSome) ∧
    (∀ k, (lookupS k st.transfer_requests).isSome →
       (lookupS k st'.transfer_requests).isSome) ∧
    (∀ k, (lookupS k st.active_transfers).isSome →
       (lookupS k st'.active_transfers).isSome) ∧
    (∀ k, (lookupS k st.relay_sessions).isSome →
       (lookupS k st'.relay_sessions).isSome) := by
  cases hs with
  | connect now pid uid addr =>
      refine ⟨fun k h => ?_, fun k h => ?_, fun k h => ?_, fun k h => ?_⟩ <;>
        simp only [connect_peer] <;>
          first
          | exact h
          | exact isSome_lookupS_setStore _ _ _ _ h
  | registerSocket now sid pid =>
      refine ⟨fun k h => ?_, fun k h => ?_, fun k h => ?_, fun k h => ?_⟩ <;>
        by_cases hpid : pid = "" <;>
          cases hl : lookupS pid st.connected_peers <;>
            simp only [register_socket, hpid, hl, if_true, if_false, ite_true, ite_false] <;>
              first
              | exact h
              | exact isSome_lookupS_modifyS _ _ _ _ h
  | socketLoss now sid =>
      refine ⟨fun k h => ?_, fun k h => ?_, fun k h => ?_, fun k h => ?_⟩ <;>
        simp only [sio_disconnect] <;>
          first
          | exact h
          | exact isSome_lookupS_mapStore _ _ _ h
  | beat now pid =>
      refine ⟨fun k h => ?_, fun k h => ?_, fun k h => ?_, fun k h => ?_⟩ <;>
        cases hl : lookupS pid st.connected_peers <;>
          simp only [heartbeat, hl] <;>
            first
            | exact h
            | exact isSome_lookupS_modifyS _ _ _ _ h
  | signal now fresh tgt src sig =>
      refine ⟨fun k h => ?_, fun k h => ?_, fun k h => ?_, fun k h => ?_⟩ <;>
        cases hl : lookupS tgt st.connected_peers with
        | none =>
            simp only [peer_signal, initiate_relay, hl] <;>
              first
              | exact h
              | exact isSome_lookupS_setStore _ _ _ _ h
        | some p =>
            cases hp : p.socket_id <;>
              simp only [peer_signal, initiate_relay, hl, hp] <;>
                first
                | exact h
                | exact isSome_lookupS_setStore _ _ _ _ h
  | chunk sid c i t =>
      refine ⟨fun k h => ?_, fun k h => ?_, fun k h => ?_, fun k h => ?_⟩ <;>
        cases hl : lookupS sid st.relay_sessions with
        | none => simp only [relay_chunk, hl] <;> exact h
        | some sess =>
            cases hr : lookupS sess.receiver_id st.connected_peers with
            | none => simp only [relay_chunk, hl, hr] <;> exact h
            | some p =>
                cases hp : p.socket_id with
                | none => simp only [relay_chunk, hl, hr, hp] <;> exact h
                | some sock =>
                    by_cases hi : i = t - 1 <;>
                      simp only [relay_chunk, hl, hr, hp, hi, if_true, if_false,
                        ite_true, ite_false] <;>
                        first
                        | exact h
                        | exact isSome_lookupS_modifyS _ _ _ _ h
  | requestTransfer now rid s r f =>
      refine ⟨fun k h => ?_, fun k h => ?_, fun k h => ?_, fun k h => ?_⟩ <;>
        simp only [request_file_transfer] <;>
          first
          | exact h
          | exact isSome_lookupS_setStore _ _ _ _ h
  | approve now tid rid =>
      refine ⟨fun k h => ?_, fun k h => ?_, fun k h => ?_, fun k h => ?_⟩ <;>
        cases hl : lookupS rid st.transfer_requests <;>
          simp only [approve_transfer, hl] <;>
            first
            | exact h
            | exact isSome_lookupS_modifyS _ _ _ _ h
            | exact isSome_lookupS_setStore _ _ _ _ h
  | upload now tid f =>
      refine ⟨fun k h => ?_, fun k h => ?_, fun k h => ?_, fun k h => ?_⟩ <;>
        cases hl : lookupS tid st.active_transfers with
        | none => simp only [upload_file, hl] <;> exact h
        | some t =>
            cases f with
            | none => simp only [upload_file, hl] <;> exact h
            | some filename =>
                by_cases hf : filename = "" <;>
                  simp only [upload_file, hl, hf, if_true, if_false, ite_true, ite_false] <;>
                    first
                    | exact h
                    | exact isSome_lookupS_modifyS _ _ _ _ (isSome_lookupS_modifyS _ _ _ _ h)
  | download tid =>
      rw [download_file_state]
      exact ⟨fun k h => h, fun k h => h, fun k h => h, fun k h => h⟩
  | statusQuery tid =>
      exact ⟨fun k h => h, fun k h => h, fun k h => h, fun k h => h⟩
  | updateStatus now tid s p =>
      refine ⟨fun k h => ?_, fun k h => ?_, fun k h => ?_, fun k h => ?_⟩ <;>
        cases hl : lookupS tid st.active_transfers with
        | none => simp only [update_transfer_status, hl] <;> exact h
        | some t =>
            by_cases hc : s = "completed" <;>
              simp only [update_transfer_status, hl, hc, if_true, if_false,
                ite_true, ite_false] <;>
                first
                | exact h
                | exact isSome_lookupS_modifyS _ _ _ _ (isSome_lookupS_modifyS _ _ _ _ h)
                | exact isSome_lookupS_modifyS _ _ _ _ h
  | cancel tid =>
      refine ⟨fun k h => ?_, fun k h => ?_, fun k h => ?_, fun k h => ?_⟩ <;>
        cases hl : lookupS tid st.active_transfers <;>
          simp only [cancel_transfer, hl] <;>
            first
            | exact h
            | exact isSome_lookupS_modifyS _ _ _ _ h
  | disconnect now pid =>
      refine ⟨fun k h => ?_, fun k h => ?_, fun k h => ?_, fun k h => ?_⟩ <;>
        cases hl : lookupS pid st.connected_peers <;>
          simp only [disconnect_peer, hl] <;>
            first
            | exact h
            | exact isSome_lookupS_modifyS _ _ _ _ h
  | sweep now =>
      refine ⟨fun k h => ?_, fun k h => ?_, fun k h => ?_, fun k h => ?_⟩ <;>
        simp only [cleanup_inactive_peers] <;>
          first
          | exact h
          | exact isSome_lookupS_mapStore _ _ _ h

/-- Fixture: an online peer with an attached channel, silent since t=0. -/
def peerA : Peer :=
  { user_id := "alice", ip := "10.0.0.1", connected_at := 0, status := "online",
    last_seen := 0, socket_id := some "sockA", disconnected_at := none }

/-- Fixture: an online peer with no attached channel, refreshed at t=50. -/
def peerB : Peer :=
  { user_id := "bob", ip := "10.0.0.2", connected_at := 0, status := "online",
    last_seen := 50, socket_id := none, disconnected_at := none }

/-- Fixture: an offline peer that still has an attached channel. -/
def peerC : Peer :=
  { user_id := "carol", ip := "10.0.0.3", connected_at := 0, status := "offline",
    last_seen := 0, socket_id := some "sockC", disconnected_at := some 3 }

/-- C5: one pass of the Liveness Monitor sweep demotes a peer to `offline`
exactly when it is `online` and `now - last_seen` is strictly greater than
60; otherwise the record is untouched, and demotion changes the `status`
field only (in particular `socket_id` is kept). -/
theorem C5_sweep_demotes_exactly_stale (st : ServerState) (now : Nat)
    (pid : String) (p : Peer) (h : lookupS pid st.connected_peers = some p) :
    lookupS pid (cleanup_inactive_peers st now).connected_peers =
      some (if p.status = "online" ∧ 60 < now - p.last_seen
            then { p with status := "offline" } else p) := by
  unfold cleanup_inactive_peers
  simp [lookupS_mapStore, h]

/-- Concrete run of `C5_sweep_demotes_exactly_stale`: at `now = 100`, peerA
(silent for 100s) is demoted with its channel kept, peerB (silent for 50s)
is untouched. -/
theorem C5_witness :
    lookupS "pA" (cleanup_inactive_peers
        { connected_peers := [("pA", peerA), ("pB", peerB)],
          transfer_requests := [], active_transfers := [],
          relay_sessions := [], files := [] } 100).connected_peers =
      some { peerA with status := "offline" } ∧
    lookupS "pB" (cleanup_inactive_peers
        { connected_peers := [("pA", peerA), ("pB", peerB)],
          transfer_requests := [], active_transfers := [],
          relay_sessions := [], files := [] } 100).connected_peers =
      some peerB := by
  constructor
  · have h := C5_sweep_demotes_exactly_stale
      { connected_peers := [("pA", peerA), ("pB", peerB)],
        transfer_requests := [], active_transfers := [],
        relay_sessions := [], files := [] } 100 "pA" peerA (by decide)
    simpa [peerA] using h
  · have h := C5_sweep_demotes_exactly_stale
      { connected_peers := [("pA", peerA), ("pB", peerB)],
        transfer_requests := [], active_transfers := [],
        relay_sessions := [], files := [] } 100 "pB" peerB (by decide)
    simpa [peerB] using h

/-- C6: `approve_transfer` on an unknown request id returns `NotFound` and
leaves the whole state (in particular the active-transfer registry)
unchanged; on a known request it marks the request `approved`, creates the
fresh `ActiveTransfer` in `ready` with progress 0 carrying the request's
sender, receiver and filename, and reports whether the sender currently has
an online peer. -/
theorem C6_approve_contract (st : ServerState) (now : Nat) (fresh rid : String) :
    (lookupS rid st.transfer_requests = none →
       (approve_transfer st now fresh rid).1 = ApproveResult.notFound ∧
       (approve_transfer st now fresh rid).2.1 = st) ∧
    (∀ req, lookupS rid st.transfer_requests = some req →
       (approve_transfer st now fresh rid).1 =
         ApproveResult.approved fresh (findOnlinePeer st req.sender_id).isSome ∧
       (lookupS rid (approve_transfer st now fresh rid).2.1.transfer_requests).map
         TransferRequest.status = some "approved" ∧
       lookupS fresh (approve_transfer st now fresh rid).2.1.active_transfers =
         some { request_id := rid, status := "ready", progress := 0,
                created_at := now, sender_id := req.sender_id,
                receiver_id := req.receiver_id, filename := req.filename,
                transfer_mode := "p2p", file_path := none,
                completed_at := none }) := by
  constructor
  · intro h
    simp [approve_transfer, h]
  · intro req h
    refine ⟨?_, ?_, ?_⟩
    · simp [approve_transfer, h]
    · simp [approve_transfer, h, lookupS_modifyS_self]
    · simp [approve_transfer, h, lookupS_setStore_self]

/-- Fixture: a pending transfer request from alice to bob. -/
def reqPending : TransferRequest :=
  { sender_id := "alice", receiver_id := "bob", filename := "f.txt",
    status := "pending", created_at := 0 }

/-- Concrete run of `C6_approve_contract`: the unknown id `"zz"` is refused
with no mutation, the known id `"r1"` yields a ready transfer. -/
theorem C6_witness :
    (approve_transfer
        { connected_peers := [("pA", peerA)],
          transfer_requests := [("r1", reqPending)], active_transfers := [],
          relay_sessions := [], files := [] } 8 "t9" "zz").1 =
      ApproveResult.notFound ∧
    lookupS "t9" (approve_transfer
        { connected_peers := [("pA", peerA)],
          transfer_requests := [("r1", reqPending)], active_transfers := [],
          relay_sessions := [], files := [] } 8 "t9" "r1").2.1.active_transfers =
      some { request_id := "r1", status := "ready", progress := 0,
             created_at := 8, sender_id := "alice", receiver_id := "bob",
             filename := "f.txt", transfer_mode := "p2p", file_path := none,
             completed_at := none } := by
  constructor
  · exact ((C6_approve_contract
      { connected_peers := [("pA", peerA)],
        transfer_requests := [("r1", reqPending)], active_transfers := [],
        relay_sessions := [], files := [] } 8 "t9" "zz").1 (by decide)).1
  · exact (((C6_approve_contract
      { connected_peers := [("pA", peerA)],
        transfer_requests := [("r1", reqPending)], active_transfers := [],
        relay_sessions := [], files := [] } 8 "t9" "r1").2 reqPending (by decide)).2).2

/-- C7: cancelling a known transfer always sets its status to `cancelled`,
and when the transfer is in `server_relay` mode with a staged `file_path`,
that path is absent from the filesystem afterwards (no orphaned payload). -/
theorem C7_cancel_purges_staged_file (st : ServerState) (tid : String)
    (t : ActiveTransfer) (h : lookupS tid st.active_transfers = some t) :
    (cancel_transfer st tid).1 = CancelResult.cancelled tid ∧
    (lookupS tid (cancel_transfer st tid).2.1.active_transfers).map
      ActiveTransfer.status = some "cancelled" ∧
    (t.transfer_mode = "server_relay" → ∀ p, t.file_path = some p →
       p ∉ (cancel_transfer st tid).2.1.files) := by
  refine ⟨?_, ?_, ?_⟩
  · simp [cancel_transfer, h]
  · simp [cancel_transfer, h, lookupS_modifyS_self]
  · intro hm p hp
    simp [cancel_transfer, h, hm, hp]

/-- Fixture: a server-relay transfer whose payload is staged on disk. -/
def tStaged : ActiveTransfer :=
  { request_id := "r1", status := "transferring", progress := 40,
    created_at := 0, sender_id := "alice", receiver_id := "bob",
    filename := "f.txt", transfer_mode := "server_relay",
    file_path := some "transfers/tS/f.txt", completed_at := none }

/-- Concrete run of `C7_cancel_purges_staged_file`: cancelling the staged
server-relay transfer `"tS"` leaves its file absent. -/
theorem C7_witness :
    (cancel_transfer
        { connected_peers := [], transfer_requests := [],
          active_transfers := [("tS", tStaged)], relay_sessions := [],
          files := ["transfers/tS/f.txt", "transfers/other/g.txt"] } "tS").1 =
      CancelResult.cancelled "tS" ∧
    "transfers/tS/f.txt" ∉ (cancel_transfer
        { connected_peers := [], transfer_requests := [],
          active_transfers := [("tS", tStaged)], relay_sessions := [],
          files := ["transfers/tS/f.txt", "transfers/other/g.txt"] } "tS").2.1.files := by
  have h := C7_cancel_purges_staged_file
    { connected_peers := [], transfer_requests := [],
      active_transfers := [("tS", tStaged)], relay_sessions := [],
      files := ["transfers/tS/f.txt", "transfers/other/g.txt"] } "tS" tStaged (by decide)
  exact ⟨h.1, h.2.2 (by decide) "transfers/tS/f.txt" (by decide)⟩

/-- C8: approving a request that is already `approved` succeeds again and
creates a second, distinct `ActiveTransfer` under the fresh transfer id,
back-referencing the same request id, while the previously created transfer
survives untouched. -/
theorem C8_reapprove_spawns_new_transfer (st : ServerState) (now : Nat)
    (fresh rid tid0 : String) (req : TransferRequest) (t0 : ActiveTransfer)
    (hreq : lookupS rid st.transfer_requests = some req)
    (happ : req.status = "approved")
    (hold : lookupS tid0 st.active_transfers = some t0)
    (hfresh : lookupS fresh st.active_transfers = none) :
    (∃ b, (approve_transfer st now fresh rid).1 = ApproveResult.approved fresh b) ∧
    (lookupS fresh (approve_transfer st now fresh rid).2.1.active_transfers).map
      ActiveTransfer.request_id = some rid ∧
    lookupS tid0 (approve_transfer st now fresh rid).2.1.active_transfers = some t0 ∧
    fresh ≠ tid0 := by
  have hne : fresh ≠ tid0 := by
    intro he
    rw [he, hold] at hfresh
    exact Option.noConfusion hfresh
  refine ⟨⟨(findOnlinePeer st req.sender_id).isSome, ?_⟩, ?_, ?_, hne⟩
  · simp [approve_transfer, hreq]
  · simp [approve_transfer, hreq, lookupS_setStore_self]
  · have hst : (approve_transfer st now fresh rid).2.1.active_transfers =
        setStore fresh
          { request_id := rid, status := "ready", progress := 0,
            created_at := now, sender_id := req.sender_id,
            receiver_id := req.receiver_id, filename := req.filename,
            transfer_mode := "p2p", file_path := none, completed_at := none }
          st.active_transfers := by
      simp [approve_transfer, hreq]
    rw [hst, lookupS_setStore_ne tid0 fresh _ _ (Ne.symm hne)]
    exact hold

/-- Fixture: an already-approved transfer request. -/
def reqApproved : TransferRequest :=
  { sender_id := "alice", receiver_id := "bob", filename := "f.txt",
    status := "approved", created_at := 0 }

/-- Fixture: the transfer created by the first approval of `reqApproved`. -/
def tFirst : ActiveTransfer :=
  { request_id := "r1", status := "ready", progress := 0, created_at := 1,
    sender_id := "alice", receiver_id := "bob", filename := "f.txt",
    transfer_mode := "p2p", file_path := none, completed_at := none }

/-- Concrete run of `C8_reapprove_spawns_new_transfer`: re-approving `"r1"`
yields the distinct transfer `"t2"` next to the surviving `"t1"`. -/
theorem C8_witness :
    (∃ b, (approve_transfer
        { connected_peers := [], transfer_requests := [("r1", reqApproved)],
          active_transfers := [("t1", tFirst)], relay_sessions := [],
          files := [] } 9 "t2" "r1").1 = ApproveResult.approved "t2" b) ∧
    (lookupS "t2" (approve_transfer
        { connected_peers := [], transfer_requests := [("r1", reqApproved)],
          active_transfers := [("t1", tFirst)], relay_sessions := [],
          files := [] } 9 "t2" "r1").2.1.active_transfers).map
      ActiveTransfer.request_id = some "r1" ∧
    lookupS "t1" (approve_transfer
        { connected_peers := [], transfer_requests := [("r1", reqApproved)],
          active_transfers := [("t1", tFirst)], relay_sessions := [],
          files := [] } 9 "t2" "r1").2.1.active_transfers = some tFirst ∧
    "t2" ≠ "t1" :=
  C8_reapprove_spawns_new_transfer
    { connected_peers := [], transfer_requests := [("r1", reqApproved)],
      active_transfers := [("t1", tFirst)], relay_sessions := [],
      files := [] } 9 "t2" "r1" "t1" reqApproved tFirst
    (by decide) (by decide) (by decide) (by decide)

/-- C9: `relay_chunk` on a known session whose receiver is not reachable
reports `queued` and leaves the entire state — in particular every relay
session — unchanged, even on the final chunk. -/
theorem C9_queued_is_pure (st : ServerState) (sid c : String) (i tot : Int)
    (sess : RelaySession) (h : lookupS sid st.relay_sessions = some sess)
    (hun : reachable st sess.receiver_id = false) :
    (relay_chunk st sid c i tot).1 =
      ChunkResult.queued "Receiver offline, chunk queued" ∧
    (relay_chunk st sid c i tot).2.1 = st := by
  cases hr : lookupS sess.receiver_id st.connected_peers with
  | none => constructor <;> simp [relay_chunk, h, hr]
  | some p =>
      cases hp : p.socket_id with
      | none => constructor <;> simp [relay_chunk, h, hr, hp]
      | some sock =>
          exfalso
          simp [reachable, hr, hp] at hun

/-- Fixture: a relay session in `initiated` whose receiver has no channel. -/
def sessInit : RelaySession :=
  { sender_id := "pA", receiver_id := "pB", status := "initiated",
    created_at := 0 }

/-- Concrete run of `C9_queued_is_pure`: the final chunk (index 4 of 5) for
a session whose receiver `peerB` has no channel is queued with no mutation. -/
theorem C9_witness :
    (relay_chunk
        { connected_peers := [("pB", peerB)], transfer_requests := [],
          active_transfers := [], relay_sessions := [("s1", sessInit)],
          files := [] } "s1" "c4" 4 5).1 =
      ChunkResult.queued "Receiver offline, chunk queued" ∧
    (relay_chunk
        { connected_peers := [("pB", peerB)], transfer_requests := [],
          active_transfers := [], relay_sessions := [("s1", sessInit)],
          files := [] } "s1" "c4" 4 5).2.1 =
      { connected_peers := [("pB", peerB)], transfer_requests := [],
        active_transfers := [], relay_sessions := [("s1", sessInit)],
        files := [] } :=
  C9_queued_is_pure
    { connected_peers := [("pB", peerB)], transfer_requests := [],
      active_transfers := [], relay_sessions := [("s1", sessInit)],
      files := [] } "s1" "c4" 4 5 sessInit (by decide) (by decide)

/-- C10: across any sequence of server operations (every HTTP handler, every
Socket.IO handler including channel loss, and the cleanup sweep), the key
set of each of the four registries only grows: once an id is a key, every
later lookup of it still succeeds. -/
theorem C10_registries_monotone (st st' : ServerState)
    (h : Relation.ReflTransGen Step st st') :
    (∀ k, (lookupS k st.connected_peers).isSome →
       (lookupS k st'.connected_peers).isSome) ∧
    (∀ k, (lookupS k st.transfer_requests).isSome →
       (lookupS k st'.transfer_requests).isSome) ∧
    (∀ k, (lookupS k st.active_transfers).isSome →
       (lookupS k st'.active_transfers).isSome) ∧
    (∀ k, (lookupS k st.relay_sessions).isSome →
       (lookupS k st'.relay_sessions).isSome) := by
  induction h with
  | refl => exact ⟨fun k h => h, fun k h => h, fun k h => h, fun k h => h⟩
  | tail hab hbc ih =>
      obtain ⟨m1, m2, m3, m4⟩ := step_mono _ _ hbc
      obtain ⟨i1, i2, i3, i4⟩ := ih
      exact ⟨fun k hk => m1 k (i1 k hk), fun k hk => m2 k (i2 k hk),
             fun k hk => m3 k (i3 k hk), fun k hk => m4 k (i4 k hk)⟩

/-- Concrete run of `C10_registries_monotone`: after a disconnect of `"pA"`
followed by a cleanup sweep, the peer id `"pA"` is still a key. -/
theorem C10_witness :
    (lookupS "pA" (cleanup_inactive_peers
        (disconnect_peer
          { connected_peers := [("pA", peerA)], transfer_requests := [],
            active_transfers := [], relay_sessions := [], files := [] }
          70 "pA").2 100).connected_peers).isSome := by
  have h := C10_registries_monotone
    { connected_peers := [("pA", peerA)], transfer_requests := [],
      active_transfers := [], relay_sessions := [], files := [] }
    (cleanup_inactive_peers
      (disconnect_peer
        { connected_peers := [("pA", peerA)], transfer_requests := [],
          active_transfers := [], relay_sessions := [], files := [] }
        70 "pA").2 100)
    (Relation.ReflTransGen.tail
      (Relation.ReflTransGen.single (Step.disconnect _ 70 "pA"))
      (Step.sweep _ 100))
  exact h.1 "pA" (by decide)

/-- Fixture: a transfer already in the terminal state `completed`. -/
def tDone : ActiveTransfer :=
  { request_id := "r1", status := "completed", progress := 100, created_at := 0,
    sender_id := "alice", receiver_id := "bob", filename := "f.txt",
    transfer_mode := "p2p", file_path := none, completed_at := some 5 }

/-- Fixture state holding only the completed transfer `"t1"`. -/
def stTerm : ServerState :=
  { connected_peers := [], transfer_requests := [],
    active_transfers := [("t1", tDone)], relay_sessions := [], files := [] }

/-- C1 fails on the code: on the already-`completed` transfer `"t1"`,
`update_transfer_status` succeeds and overwrites the status (no
`InvalidTransition` is signalled and the fields do change), and
`cancel_transfer` succeeds as well. -/
theorem C1_counterexample :
    (update_transfer_status stTerm 9 "t1" "transferring" 50).1 =
      UpdateResult.updated ∧
    (lookupS "t1" (update_transfer_status stTerm 9 "t1" "transferring"
        50).2.1.active_transfers).map ActiveTransfer.status =
      some "transferring" ∧
    (cancel_transfer stTerm "t1").1 = CancelResult.cancelled "t1" := by
  refine ⟨by decide, by decide, by decide⟩

/-- C1 amended: neither `update_transfer_status` nor `cancel_transfer`
checks for a terminal state.  On a transfer that is already `completed` or
`cancelled`, `update_transfer_status` succeeds and overwrites `status` (and
`progress`) with the caller's values, and `cancel_transfer` succeeds and
sets the status to `cancelled`. -/
theorem C1_amended_no_terminal_check (st : ServerState) (now : Nat)
    (tid s : String) (pr : Int) (t : ActiveTransfer)
    (h : lookupS tid st.active_transfers = some t)
    (hterm : t.status = "completed" ∨ t.status = "cancelled") :
    (update_transfer_status st now tid s pr).1 = UpdateResult.updated ∧
    (lookupS tid (update_transfer_status st now tid s
        pr).2.1.active_transfers).map ActiveTransfer.status = some s ∧
    (lookupS tid (update_transfer_status st now tid s
        pr).2.1.active_transfers).map ActiveTransfer.progress = some pr ∧
    (cancel_transfer st tid).1 = CancelResult.cancelled tid ∧
    (lookupS tid (cancel_transfer st tid).2.1.active_transfers).map
      ActiveTransfer.status = some "cancelled" := by
  refine ⟨?_, ?_, ?_, ?_, ?_⟩
  · by_cases hc : s = "completed" <;> simp [update_transfer_status, h, hc]
  · by_cases hc : s = "completed" <;>
      simp [update_transfer_status, h, hc, lookupS_modifyS_self]
  · by_cases hc : s = "completed" <;>
      simp [update_transfer_status, h, hc, lookupS_modifyS_self]
  · simp [cancel_transfer, h]
  · simp [cancel_transfer, h, lookupS_modifyS_self]

/-- Concrete run of `C1_amended_no_terminal_check` on the completed transfer
`"t1"`. -/
theorem C1_witness :
    (update_transfer_status stTerm 9 "t1" "ready" 0).1 = UpdateResult.updated ∧
    (lookupS "t1" (update_transfer_status stTerm 9 "t1" "ready"
        0).2.1.active_transfers).map ActiveTransfer.status = some "ready" ∧
    (lookupS "t1" (update_transfer_status stTerm 9 "t1" "ready"
        0).2.1.active_transfers).map ActiveTransfer.progress = some 0 ∧
    (cancel_transfer stTerm "t1").1 = CancelResult.cancelled "t1" ∧
    (lookupS "t1" (cancel_transfer stTerm "t1").2.1.active_transfers).map
      ActiveTransfer.status = some "cancelled" :=
  C1_amended_no_terminal_check stTerm 9 "t1" "ready" 0 tDone (by decide)
    (Or.inl (by decide))

/-- Fixture state for the Signal Router claims: `"p2"` is a known peer that
is `offline` yet still has the attached channel `"sockC"`. -/
def stSig : ServerState :=
  { connected_peers := [("p2", peerC)], transfer_requests := [],
    active_transfers := [], relay_sessions := [], files := [] }

/-- C2 fails on the code twice.  First, the target `"p2"` is offline, so the
claim demands a `relay_initiated` result with a fresh session — but the code
only tests key presence and `socket_id`, so the signal is delivered and no
session is created.  Second, on an unknown target the returned value is the
same for two different fresh session ids, so the result cannot carry the new
session id (the code returns only a relay status and a fixed message). -/
theorem C2_counterexample :
    (peer_signal stSig 7 "s9" "p2" "p1" "blob").1 = SignalResult.success ∧
    (peer_signal stSig 7 "s9" "p2" "p1" "blob").2.1.relay_sessions = [] ∧
    (peer_signal stSig 7 "sA" "nobody" "p1" "blob").1 =
      (peer_signal stSig 7 "sB" "nobody" "p1" "blob").1 := by
  refine ⟨by decide, by decide, by decide⟩

/-- C2 amended: if the target peer id is known and its record has an
attached channel (its `status` is not consulted), the payload is forwarded
verbatim to that channel tagged with the sender peer id and the result is
success/delivered; in every other case the call does not fail — it creates
a fresh `RelaySession` in status `initiated` and returns a `relay` result
whose payload is a fixed message that does not include the new session id
(the id is only emitted to the sender's channel when the sender is
reachable). -/
theorem C2_amended_route_signal (st : ServerState) (now : Nat)
    (fresh tgt snd sig : String) :
    (∀ p sock, lookupS tgt st.connected_peers = some p →
       p.socket_id = some sock →
       peer_signal st now fresh tgt snd sig =
         (SignalResult.success, st, [Emit.peerSignal sock snd sig])) ∧
    (reachable st tgt = false →
       (peer_signal st now fresh tgt snd sig).1 =
         SignalResult.relay "Target peer unavailable, using relay" ∧
       lookupS fresh (peer_signal st now fresh tgt snd
           sig).2.1.relay_sessions =
         some { sender_id := snd, receiver_id := tgt, status := "initiated",
                created_at := now }) := by
  constructor
  · intro p sock hp hs
    simp [peer_signal, hp, hs]
  · intro hun
    cases hl : lookupS tgt st.connected_peers with
    | none =>
        constructor <;>
          simp [peer_signal, initiate_relay, hl, lookupS_setStore_self]
    | some p =>
        cases hp : p.socket_id with
        | none =>
            constructor <;>
              simp [peer_signal, initiate_relay, hl, hp, lookupS_setStore_self]
        | some sock =>
            exfalso
            simp [reachable, hl, hp] at hun

/-- Concrete run of `C2_amended_route_signal`: the offline-but-attached peer
`"p2"` gets the payload delivered verbatim; the unknown peer `"nobody"`
triggers the relay fallback with a fresh `initiated` session. -/
theorem C2_witness :
    peer_signal stSig 7 "sX" "p2" "p1" "blob" =
      (SignalResult.success, stSig, [Emit.peerSignal "sockC" "p1" "blob"]) ∧
    ((peer_signal stSig 7 "s9" "nobody" "p1" "blob").1 =
       SignalResult.relay "Target peer unavailable, using relay" ∧
     lookupS "s9" (peer_signal stSig 7 "s9" "nobody" "p1"
         "blob").2.1.relay_sessions =
       some { sender_id := "p1", receiver_id := "nobody",
              status := "initiated", created_at := 7 }) :=
  ⟨(C2_amended_route_signal stSig 7 "sX" "p2" "p1" "blob").1 peerC "sockC"
     (by decide) (by decide),
   (C2_amended_route_signal stSig 7 "s9" "nobody" "p1" "blob").2 (by decide)⟩

/-- Fixture: a relay session whose receiver `"pA"` has an attached channel. -/
def sessLive : RelaySession :=
  { sender_id := "pB", receiver_id := "pA", status := "initiated",
    created_at := 0 }

/-- Fixture state for the relay claims: session `"s1"` has the unreachable
receiver `"pB"`, session `"s2"` has the reachable receiver `"pA"`. -/
def stRelay : ServerState :=
  { connected_peers := [("pA", peerA), ("pB", peerB)], transfer_requests := [],
    active_transfers := [],
    relay_sessions := [("s1", sessInit), ("s2", sessLive)], files := [] }

/-- C3 fails on the code: the final chunk (`index = 4`, `total = 5`) of the
known session `"s1"` whose receiver has no channel is only queued — the
session does not transition to `completed` as the claim's unconditional
"for every known session" clause demands. -/
theorem C3_counterexample :
    (relay_chunk stRelay "s1" "c4" 4 5).1 =
      ChunkResult.queued "Receiver offline, chunk queued" ∧
    (lookupS "s1" (relay_chunk stRelay "s1" "c4" 4 5).2.1.relay_sessions).map
      RelaySession.status = some "initiated" := by
  refine ⟨by decide, by decide⟩

/-- C3 amended: an unknown session id fails (`Invalid relay session`) with
the whole state unchanged; on a known session the transition to `completed`
on `index = total - 1` happens only when the receiver is reachable, and when
the receiver is not reachable the call reports `queued`. -/
theorem C3_amended_forward_chunk (st : ServerState) (sid c : String)
    (i tot : Int) :
    (lookupS sid st.relay_sessions = none →
       (relay_chunk st sid c i tot).1 = ChunkResult.err "Invalid relay session" ∧
       (relay_chunk st sid c i tot).2.1 = st) ∧
    (∀ sess, lookupS sid st.relay_sessions = some sess →
       (reachable st sess.receiver_id = true → i = tot - 1 →
          (lookupS sid (relay_chunk st sid c i tot).2.1.relay_sessions).map
            RelaySession.status = some "completed") ∧
       (reachable st sess.receiver_id = false →
          (relay_chunk st sid c i tot).1 =
            ChunkResult.queued "Receiver offline, chunk queued")) := by
  constructor
  · intro h
    constructor <;> simp [relay_chunk, h]
  · intro sess h
    constructor
    · intro hre hi
      cases hr : lookupS sess.receiver_id st.connected_peers with
      | none =>
          exfalso
          simp [reachable, hr] at hre
      | some p =>
          cases hp : p.socket_id with
          | none =>
              exfalso
              simp [reachable, hr, hp] at hre
          | some sock =>
              simp [relay_chunk, h, hr, hp, hi, lookupS_modifyS_self]
    · intro hun
      cases hr : lookupS sess.receiver_id st.connected_peers with
      | none => simp [relay_chunk, h, hr]
      | some p =>
          cases hp : p.socket_id with
          | none => simp [relay_chunk, h, hr, hp]
          | some sock =>
              exfalso
              simp [reachable, hr, hp] at hun

/-- Concrete run of `C3_amended_forward_chunk`: unknown `"zz"` fails with no
mutation; the final chunk completes `"s2"` (reachable receiver) and only
queues on `"s1"` (unreachable receiver). -/
theorem C3_witness :
    ((relay_chunk stRelay "zz" "c0" 0 5).1 =
       ChunkResult.err "Invalid relay session" ∧
     (relay_chunk stRelay "zz" "c0" 0 5).2.1 = stRelay) ∧
    (lookupS "s2" (relay_chunk stRelay "s2" "c4" 4 5).2.1.relay_sessions).map
      RelaySession.status = some "completed" ∧
    (relay_chunk stRelay "s1" "c4" 4 5).1 =
      ChunkResult.queued "Receiver offline, chunk queued" :=
  ⟨(C3_amended_forward_chunk stRelay "zz" "c0" 0 5).1 (by decide),
   ((C3_amended_forward_chunk stRelay "s2" "c4" 4 5).2 sessLive
      (by decide)).1 (by decide) (by decide),
   ((C3_amended_forward_chunk stRelay "s1" "c4" 4 5).2 sessInit
      (by decide)).2 (by decide)⟩

/-- Fixture state for the disconnect claim: one online peer `"p1"` with the
attached channel `"sockA"`. -/
def stPeers : ServerState :=
  { connected_peers := [("p1", peerA)], transfer_requests := [],
    active_transfers := [], relay_sessions := [], files := [] }

/-- C4 fails on the code: after `disconnect_peer` on the known peer `"p1"`,
its `socket_id` is still `"sockA"` — the channel reference is not cleared as
the claim demands. -/
theorem C4_counterexample :
    (lookupS "p1" (disconnect_peer stPeers 9 "p1").2.connected_peers).map
      Peer.socket_id = some (some "sockA") := by
  decide

/-- C4 amended: `disconnect_peer` on a known peer sets `status = offline`
and `disconnected_at = now` but leaves the peer's `socket_id` in place; on
an unknown peer it fails `NotFound` with no mutation. -/
theorem C4_amended_disconnect (st : ServerState) (now : Nat) (pid : String) :
    (lookupS pid st.connected_peers = none →
       (disconnect_peer st now pid).1 = DisconnectResult.notFound ∧
       (disconnect_peer st now pid).2 = st) ∧
    (∀ p, lookupS pid st.connected_peers = some p →
       (disconnect_peer st now pid).1 = DisconnectResult.disconnected pid ∧
       lookupS pid (disconnect_peer st now pid).2.connected_peers =
         some { p with status := "offline", disconnected_at := some now }) := by
  constructor
  · intro h
    constructor <;> simp [disconnect_peer, h]
  · intro p h
    constructor
    · simp [disconnect_peer, h]
    · simp [disconnect_peer, h, lookupS_modifyS_self]

/-- Concrete run of `C4_amended_disconnect`: the unknown peer `"zz"` is
refused with no mutation; disconnecting `"p1"` marks it offline while its
`socket_id` stays `"sockA"`. -/
theorem C4_witness :
    ((disconnect_peer stPeers 9 "zz").1 = DisconnectResult.notFound ∧
     (disconnect_peer stPeers 9 "zz").2 = stPeers) ∧
    ((disconnect_peer stPeers 9 "p1").1 = DisconnectResult.disconnected "p1" ∧
     lookupS "p1" (disconnect_peer stPeers 9 "p1").2.connected_peers =
       some { peerA with status := "offline", disconnected_at := some 9 }) :=
  ⟨(C4_amended_disconnect stPeers 9 "zz").1 (by decide),
   (C4_amended_disconnect stPeers 9 "p1").2 peerA (by decide)⟩
